import Mathlib

/- Verification of the branch-safety core of a CI coding-agent action
   (branch name validation, branch lifecycle setup, the local git-ops tool
   gateway, permission gating of the prepare flow, and the comment actor
   filter), shallowly embedded from the TypeScript sources. -/

set_option maxRecDepth 4000

/-! ## String helpers (character-list level, mirroring JS string primitives) -/

/-- Boolean prefix test on character lists (JS String.startsWith). -/
def isPrefixOfB : List Char → List Char → Bool
  | [], _ => true
  | _ :: _, [] => false
  | a :: as, b :: bs => a == b && isPrefixOfB as bs

/-- Boolean infix test on character lists (JS String.includes). -/
def hasInfixB (needle : List Char) : List Char → Bool
  | [] => isPrefixOfB needle []
  | c :: cs => isPrefixOfB needle (c :: cs) || hasInfixB needle cs

/-- JS s.startsWith(pre). -/
def strStarts (s pre : String) : Bool := isPrefixOfB pre.toList s.toList

/-- JS s.endsWith(suf). -/
def strEnds (s suf : String) : Bool := isPrefixOfB suf.toList.reverse s.toList.reverse

/-- JS s.includes(sub). -/
def strContains (s sub : String) : Bool := hasInfixB sub.toList s.toList

/-- ASCII alphanumeric, the regex class a-zA-Z0-9. -/
def isAlnumAscii (c : Char) : Bool :=
  (('a') ≤ c && c ≤ ('z')) || (('A') ≤ c && c ≤ ('Z')) || (('0') ≤ c && c ≤ ('9'))

/-! ## Branch Name Validator (src/github/operations/branch.ts, validateBranchName) -/

/-- The character class of the regex guarding control characters, space and
    special git characters: x00-x1F, x7F, space, and one of tilde caret colon
    question star brackets backslash. -/
def isCtrlOrSpecialGit (c : Char) : Bool :=
  c.toNat ≤ 31 || c.toNat == 127 || c == (' ') || c == ('~') || c == ('^') ||
  c == (':') || c == ('?') || c == ('*') || c == ('[') || c == (']') || c == ('\\')

/-- Characters allowed after the first position by the whitelist regex. -/
def isWhitelistRest (c : Char) : Bool :=
  isAlnumAscii c || c == ('/') || c == ('_') || c == ('.') || c == ('-')

/-- The strict whitelist regex of validateBranchName: an ASCII alphanumeric
    first character followed by alphanumerics, slash, underscore, period, dash. -/
def matchesWhitelist (s : String) : Bool :=
  match s.toList with
  | [] => false
  | c :: cs => isAlnumAscii c && cs.all isWhitelistRest

/-- Embeds validateBranchName: the sequence of rejection checks, in source
    order; a thrown Error is an error value. -/
def validateBranchName (branchName : String) : Except String Unit :=
  if branchName.toList.all Char.isWhitespace then
    Except.error ("Branch name cannot be empty")
  else if strStarts branchName ("-") then
    Except.error ("Branch names cannot start with a dash.")
  else if branchName.toList.any isCtrlOrSpecialGit then
    Except.error ("Branch names cannot contain control characters, spaces, or special git characters.")
  else if !(matchesWhitelist branchName) then
    Except.error ("Branch names must start with an alphanumeric character and contain only allowed characters.")
  else if strStarts branchName (".") || strEnds branchName (".") then
    Except.error ("Branch names cannot start or end with a period.")
  else if strEnds branchName ("/") then
    Except.error ("Branch names cannot end with a slash.")
  else if strContains branchName ("//") then
    Except.error ("Branch names cannot contain consecutive slashes.")
  else if strContains branchName ("..") then
    Except.error ("Branch names cannot contain dotdot.")
  else if strEnds branchName (".lock") then
    Except.error ("Branch names cannot end with dotlock.")
  else if strContains branchName ("@\x7b") then
    Except.error ("Branch names cannot contain at-brace.")
  else
    Except.ok ()

/-- True when validateBranchName accepts (does not throw). -/
def branchNameOk (s : String) : Bool :=
  match validateBranchName s with
  | Except.ok _ => true
  | Except.error _ => false

/-- branchNameOk as one boolean conjunction of the ten checks. -/
theorem branchNameOk_eq (s : String) :
    branchNameOk s =
      (!(s.toList.all Char.isWhitespace) && !(strStarts s ("-")) &&
       !(s.toList.any isCtrlOrSpecialGit) && matchesWhitelist s &&
       !(strStarts s (".") || strEnds s (".")) && !(strEnds s ("/")) &&
       !(strContains s ("//")) && !(strContains s ("..")) &&
       !(strEnds s (".lock")) && !(strContains s ("@\x7b"))) := by
  unfold branchNameOk validateBranchName
  split_ifs with h1 h2 h3 h4 h5 h6 h7 h8 h9 h10
  · simp only [h1, Bool.not_true, Bool.false_and, Bool.and_false]
  · simp only [h2, Bool.not_true, Bool.false_and, Bool.and_false]
  · simp only [h3, Bool.not_true, Bool.false_and, Bool.and_false]
  · rw [Bool.not_eq_true'] at h4
    simp only [h4, Bool.false_and, Bool.and_false]
  · simp only [h5, Bool.not_true, Bool.false_and, Bool.and_false]
  · simp only [h6, Bool.not_true, Bool.false_and, Bool.and_false]
  · simp only [h7, Bool.not_true, Bool.false_and, Bool.and_false]
  · simp only [h8, Bool.not_true, Bool.false_and, Bool.and_false]
  · simp only [h9, Bool.not_true, Bool.false_and, Bool.and_false]
  · simp only [h10, Bool.not_true, Bool.false_and, Bool.and_false]
  · rw [Bool.not_eq_true] at h1 h2 h3 h5 h6 h7 h8 h9 h10
    rw [Bool.not_eq_true'] at h4
    rw [Bool.not_eq_false] at h4
    simp only [Bool.or_eq_false_iff] at h5
    simp only [h1, h2, h3, h4, h5.1, h5.2, h6, h7, h8, h9, h10,
      Bool.not_false, Bool.false_or, Bool.true_and, Bool.and_true]

theorem branchNameOk_false_of_whitespace (s : String)
    (h : s.toList.all Char.isWhitespace = true) : branchNameOk s = false := by
  rw [branchNameOk_eq]
  simp only [h, Bool.not_true, Bool.false_and, Bool.and_false]

theorem branchNameOk_false_of_dash (s : String)
    (h : strStarts s ("-") = true) : branchNameOk s = false := by
  rw [branchNameOk_eq]
  simp only [h, Bool.not_true, Bool.false_and, Bool.and_false]

theorem branchNameOk_false_of_special (s : String) (c : Char)
    (hc : c ∈ s.toList) (h : isCtrlOrSpecialGit c = true) : branchNameOk s = false := by
  have hany : s.toList.any isCtrlOrSpecialGit = true := by
    simp only [List.any_eq_true]
    exact ⟨c, hc, h⟩
  rw [branchNameOk_eq]
  simp only [hany, Bool.not_true, Bool.false_and, Bool.and_false]

theorem branchNameOk_false_of_pattern (s : String)
    (h : matchesWhitelist s = false) : branchNameOk s = false := by
  rw [branchNameOk_eq]
  simp only [h, Bool.false_and, Bool.and_false]

theorem branchNameOk_false_of_period (s : String)
    (h : strStarts s (".") = true ∨ strEnds s (".") = true) : branchNameOk s = false := by
  rw [branchNameOk_eq]
  rcases h with h | h
  · simp only [h, Bool.true_or, Bool.not_true, Bool.false_and, Bool.and_false]
  · simp only [h, Bool.or_true, Bool.not_true, Bool.false_and, Bool.and_false]

theorem branchNameOk_false_of_trailing_slash (s : String)
    (h : strEnds s ("/") = true) : branchNameOk s = false := by
  rw [branchNameOk_eq]
  simp only [h, Bool.not_true, Bool.false_and, Bool.and_false]

theorem branchNameOk_false_of_dotdot (s : String)
    (h : strContains s ("..") = true) : branchNameOk s = false := by
  rw [branchNameOk_eq]
  simp only [h, Bool.not_true, Bool.false_and, Bool.and_false]

theorem branchNameOk_false_of_lock (s : String)
    (h : strEnds s (".lock") = true) : branchNameOk s = false := by
  rw [branchNameOk_eq]
  simp only [h, Bool.not_true, Bool.false_and, Bool.and_false]

theorem branchNameOk_false_of_atbrace (s : String)
    (h : strContains s ("@\x7b") = true) : branchNameOk s = false := by
  rw [branchNameOk_eq]
  simp only [h, Bool.not_true, Bool.false_and, Bool.and_false]

/-- C5: validateBranchName rejects every empty or whitespace-only string, every
    string starting with a dash, containing a space, control character or
    special git character, failing the whitelist pattern, starting or ending
    with a period, ending with a slash, containing two consecutive periods,
    ending with dot-lock, or containing an at-sign followed by an opening
    brace; and it accepts feature/foo-1 and claude/issue-42 while rejecting
    ../etc, .hidden, bad/, a..b, x.lock and HEAD at-brace 1 close-brace. -/
theorem C5_validateBranchName :
    (∀ s : String, s.toList.all Char.isWhitespace = true → branchNameOk s = false) ∧
    (∀ s : String, strStarts s ("-") = true → branchNameOk s = false) ∧
    (∀ (s : String) (c : Char), c ∈ s.toList → isCtrlOrSpecialGit c = true →
        branchNameOk s = false) ∧
    (∀ s : String, matchesWhitelist s = false → branchNameOk s = false) ∧
    (∀ s : String, strStarts s (".") = true ∨ strEnds s (".") = true →
        branchNameOk s = false) ∧
    (∀ s : String, strEnds s ("/") = true → branchNameOk s = false) ∧
    (∀ s : String, strContains s ("..") = true → branchNameOk s = false) ∧
    (∀ s : String, strEnds s (".lock") = true → branchNameOk s = false) ∧
    (∀ s : String, strContains s ("@\x7b") = true → branchNameOk s = false) ∧
    branchNameOk ("feature/foo-1") = true ∧
    branchNameOk ("claude/issue-42") = true ∧
    branchNameOk ("../etc") = false ∧
    branchNameOk (".hidden") = false ∧
    branchNameOk ("bad/") = false ∧
    branchNameOk ("a..b") = false ∧
    branchNameOk ("x.lock") = false ∧
    branchNameOk ("HEAD@\x7b1\x7d") = false :=
  ⟨branchNameOk_false_of_whitespace, branchNameOk_false_of_dash,
   branchNameOk_false_of_special, branchNameOk_false_of_pattern,
   branchNameOk_false_of_period, branchNameOk_false_of_trailing_slash,
   branchNameOk_false_of_dotdot, branchNameOk_false_of_lock,
   branchNameOk_false_of_atbrace,
   by decide, by decide, by decide, by decide, by decide, by decide, by decide, by decide⟩

/-- Closed instantiation of C5: each universally quantified rejection clause
    applied at a concrete input. -/
theorem C5_witness :
    branchNameOk ("  ") = false ∧ branchNameOk ("-x") = false ∧
    branchNameOk ("x~y") = false ∧ branchNameOk ("a@b") = false ∧
    branchNameOk ("x.") = false ∧ branchNameOk ("claude/") = false ∧
    branchNameOk ("a..b2") = false ∧ branchNameOk ("y.lock") = false ∧
    branchNameOk ("v1.2.3") = true :=
  ⟨C5_validateBranchName.1 ("  ") (by decide),
   C5_validateBranchName.2.1 ("-x") (by decide),
   C5_validateBranchName.2.2.1 ("x~y") ('~') (by decide) (by decide),
   C5_validateBranchName.2.2.2.1 ("a@b") (by decide),
   C5_validateBranchName.2.2.2.2.1 ("x.") (Or.inr (by decide)),
   C5_validateBranchName.2.2.2.2.2.1 ("claude/") (by decide),
   C5_validateBranchName.2.2.2.2.2.2.1 ("a..b2") (by decide),
   C5_validateBranchName.2.2.2.2.2.2.2.1 ("y.lock") (by decide),
   by decide⟩

/-! ## Branch Lifecycle Manager (src/github/operations/branch.ts, setupBranch)

The function is embedded as a trace-producing state function: the
environment supplies the outcome of each external git command and the
repository default branch; the result is the list of performed effects
(git invocations, validator calls, output assignment) together with the
control outcome (normal return, propagated exception, or process exit 1). -/

/-- The BranchInfo record returned by setupBranch. -/
structure BranchInfo where
  baseBranch : String
  claudeBranch : Option String
  currentBranch : String
deriving DecidableEq

/-- Observable effects of setupBranch: a git invocation with its argument
    vector, a call of the Branch Name Validator on a ref, the default-branch
    metadata query, and a workflow output assignment. -/
inductive SetupEv where
  | git (args : List String)
  | validated (ref : String)
  | fetchedDefaultBranch
  | setOutput (key value : String)
deriving DecidableEq

/-- Control outcome of setupBranch: normal return, an exception propagating
    to the caller, or process.exit(1) from the issue-path catch block. -/
inductive SetupOutcome where
  | ok (info : BranchInfo)
  | thrown (msg : String)
  | exited
deriving DecidableEq

/-- Environment: repository default branch, success of each git command, and
    the output of git branch --show-current. -/
structure SetupEnv where
  defaultBranch : String
  gitOk : List String → Bool
  showCurrent : String

/-- Inputs of setupBranch taken from the parsed context and the fetched
    PR/issue data: the event kind, the fetched PR state and head/base refs,
    and the optional base-branch override input. -/
structure SetupInputs where
  isPR : Bool
  prState : String
  headRefName : String
  baseRefName : String
  inputBaseBranch : Option String

/-- The source branch: the base-branch input when provided, otherwise the
    default branch fetched from the repository metadata. -/
def srcOf (env : SetupEnv) (inp : SetupInputs) : String :=
  match inp.inputBaseBranch with
  | some b => b
  | none => env.defaultBranch

/-- Events preceding the branch logic: the default-branch query happens only
    when no base-branch input is provided. -/
def setupEv0 (inp : SetupInputs) : List SetupEv :=
  match inp.inputBaseBranch with
  | some _ => []
  | none => [SetupEv.fetchedDefaultBranch]

/-- Closed/merged-PR path of setupBranch: shallow fetch (depth 1), checkout
    and pull of the source branch; a failing command throws. -/
def setupBranchClosed (env : SetupEnv) (ev0 : List SetupEv) (src : String) :
    List SetupEv × SetupOutcome :=
  if !env.gitOk ["fetch", "origin", "--depth=1", src] then
    (ev0 ++ [SetupEv.git ["fetch", "origin", "--depth=1", src]],
     SetupOutcome.thrown ("git fetch failed"))
  else if !env.gitOk ["checkout", src] then
    (ev0 ++ [SetupEv.git ["fetch", "origin", "--depth=1", src], SetupEv.git ["checkout", src]],
     SetupOutcome.thrown ("git checkout failed"))
  else if !env.gitOk ["pull", "origin", src] then
    (ev0 ++ [SetupEv.git ["fetch", "origin", "--depth=1", src], SetupEv.git ["checkout", src],
             SetupEv.git ["pull", "origin", src]],
     SetupOutcome.thrown ("git pull failed"))
  else
    (ev0 ++ [SetupEv.git ["fetch", "origin", "--depth=1", src], SetupEv.git ["checkout", src],
             SetupEv.git ["pull", "origin", src]],
     SetupOutcome.ok ⟨src, none, src⟩)

/-- Open-PR path of setupBranch: fetch (depth 20) and checkout of the fetched
    head ref, then validation of the fetched base ref, then return. -/
def setupBranchOpenPR (env : SetupEnv) (ev0 : List SetupEv) (head base : String) :
    List SetupEv × SetupOutcome :=
  if !env.gitOk ["fetch", "origin", "--depth=20", head] then
    (ev0 ++ [SetupEv.git ["fetch", "origin", "--depth=20", head]],
     SetupOutcome.thrown ("git fetch failed"))
  else if !env.gitOk ["checkout", head] then
    (ev0 ++ [SetupEv.git ["fetch", "origin", "--depth=20", head], SetupEv.git ["checkout", head]],
     SetupOutcome.thrown ("git checkout failed"))
  else
    match validateBranchName base with
    | Except.error m =>
        (ev0 ++ [SetupEv.git ["fetch", "origin", "--depth=20", head],
                 SetupEv.git ["checkout", head]],
         SetupOutcome.thrown m)
    | Except.ok _ =>
        (ev0 ++ [SetupEv.git ["fetch", "origin", "--depth=20", head],
                 SetupEv.git ["checkout", head], SetupEv.validated base],
         SetupOutcome.ok ⟨base, none, head⟩)

/-- Issue path of setupBranch, wrapped in try/catch: git status, shallow
    fetch, checkout, pull, then a query of the current branch compared with
    the expected source branch; any failure or a mismatch reaches the catch
    block, which calls process.exit(1). -/
def setupBranchIssue (env : SetupEnv) (ev0 : List SetupEv) (src : String) :
    List SetupEv × SetupOutcome :=
  if !env.gitOk ["status"] then
    (ev0 ++ [SetupEv.git ["status"]], SetupOutcome.exited)
  else if !env.gitOk ["fetch", "origin", "--depth=1", src] then
    (ev0 ++ [SetupEv.git ["status"], SetupEv.git ["fetch", "origin", "--depth=1", src]],
     SetupOutcome.exited)
  else if !env.gitOk ["checkout", src] then
    (ev0 ++ [SetupEv.git ["status"], SetupEv.git ["fetch", "origin", "--depth=1", src],
             SetupEv.git ["checkout", src]],
     SetupOutcome.exited)
  else if !env.gitOk ["pull", "origin", src] then
    (ev0 ++ [SetupEv.git ["status"], SetupEv.git ["fetch", "origin", "--depth=1", src],
             SetupEv.git ["checkout", src], SetupEv.git ["pull", "origin", src]],
     SetupOutcome.exited)
  else if !env.gitOk ["branch", "--show-current"] then
    (ev0 ++ [SetupEv.git ["status"], SetupEv.git ["fetch", "origin", "--depth=1", src],
             SetupEv.git ["checkout", src], SetupEv.git ["pull", "origin", src],
             SetupEv.git ["branch", "--show-current"]],
     SetupOutcome.exited)
  else if env.showCurrent == src then
    (ev0 ++ [SetupEv.git ["status"], SetupEv.git ["fetch", "origin", "--depth=1", src],
             SetupEv.git ["checkout", src], SetupEv.git ["pull", "origin", src],
             SetupEv.git ["branch", "--show-current"], SetupEv.setOutput ("BASE_BRANCH") src],
     SetupOutcome.ok ⟨src, none, src⟩)
  else
    (ev0 ++ [SetupEv.git ["status"], SetupEv.git ["fetch", "origin", "--depth=1", src],
             SetupEv.git ["checkout", src], SetupEv.git ["pull", "origin", src],
             SetupEv.git ["branch", "--show-current"]],
     SetupOutcome.exited)

/-- setupBranch: dispatch on event kind and fetched PR state, exactly as the
    source branches on isPR and on prState being CLOSED or MERGED. -/
def setupBranch (env : SetupEnv) (inp : SetupInputs) : List SetupEv × SetupOutcome :=
  if inp.isPR then
    if inp.prState == "CLOSED" || inp.prState == "MERGED" then
      setupBranchClosed env (setupEv0 inp) (srcOf env inp)
    else
      setupBranchOpenPR env (setupEv0 inp) inp.headRefName inp.baseRefName
  else
    setupBranchIssue env (setupEv0 inp) (srcOf env inp)

/-- True when the trace uses ref r in a git argument vector at a position
    not preceded by a validator call on r. -/
def usedBeforeValidated (r : String) : List SetupEv → Bool
  | [] => false
  | SetupEv.validated s :: rest => if s == r then false else usedBeforeValidated r rest
  | SetupEv.git args :: rest => args.contains r || usedBeforeValidated r rest
  | _ :: rest => usedBeforeValidated r rest

/-- Environment in which every git command succeeds and the current branch
    reads back as main. -/
def envAllOkSetup : SetupEnv := ⟨("main"), fun _ => true, ("main")⟩

/-- Environment in which every git command succeeds but the current branch
    reads back as a branch different from main. -/
def envMismatch : SetupEnv := ⟨("main"), fun _ => true, ("weird")⟩

/-- An open PR whose fetched head ref is an arbitrary externally influenced
    string, with base ref main and base-branch input main. -/
def inpOpenPR : SetupInputs := ⟨true, ("OPEN"), ("evil-head"), ("main"), some ("main")⟩

/-- A closed PR with a still-resolvable head ref. -/
def inpClosedPR : SetupInputs := ⟨true, ("CLOSED"), ("old-head"), ("main"), some ("main")⟩

/-- An issue event with base-branch input main. -/
def inpIssue : SetupInputs := ⟨false, ("OPEN"), (""), (""), some ("main")⟩

theorem setupEv0_no_git (inp : SetupInputs) (args : List String) :
    SetupEv.git args ∉ setupEv0 inp := by
  unfold setupEv0
  rcases inp.inputBaseBranch <;> simp

theorem setupBranchClosed_git_mem (env : SetupEnv) (ev0 : List SetupEv) (src : String)
    (args : List String) (h : SetupEv.git args ∈ (setupBranchClosed env ev0 src).1) :
    SetupEv.git args ∈ ev0 ∨ args = ["fetch", "origin", "--depth=1", src] ∨
    args = ["checkout", src] ∨ args = ["pull", "origin", src] := by
  unfold setupBranchClosed at h
  split_ifs at h <;>
    simp only [List.mem_append, List.mem_cons, List.not_mem_nil, or_false,
      SetupEv.git.injEq, List.mem_singleton] at h <;>
    tauto

theorem setupBranchOpenPR_git_mem (env : SetupEnv) (ev0 : List SetupEv) (head base : String)
    (args : List String) (h : SetupEv.git args ∈ (setupBranchOpenPR env ev0 head base).1) :
    SetupEv.git args ∈ ev0 ∨ args = ["fetch", "origin", "--depth=20", head] ∨
    args = ["checkout", head] := by
  unfold setupBranchOpenPR at h
  split_ifs at h
  · simp only [List.mem_append, List.mem_cons, List.not_mem_nil, or_false,
      SetupEv.git.injEq, List.mem_singleton] at h
    tauto
  · simp only [List.mem_append, List.mem_cons, List.not_mem_nil, or_false,
      SetupEv.git.injEq, List.mem_singleton] at h
    tauto
  · rcases hv : validateBranchName base with m | u <;> rw [hv] at h <;>
      simp only [List.mem_append, List.mem_cons, List.not_mem_nil, or_false,
        SetupEv.git.injEq, List.mem_singleton, reduceCtorEq] at h <;>
      tauto

theorem setupBranchIssue_shows_current (env : SetupEnv) (ev0 : List SetupEv) (src : String)
    (h0 : env.gitOk (["status"]) = true)
    (h1 : env.gitOk (["fetch", "origin", "--depth=1", src]) = true)
    (h2 : env.gitOk (["checkout", src]) = true)
    (h3 : env.gitOk (["pull", "origin", src]) = true)
    (h4 : env.gitOk (["branch", "--show-current"]) = true)
    (hm : (env.showCurrent == src) = false) :
    (setupBranchIssue env ev0 src).2 = SetupOutcome.exited ∧
    SetupEv.git (["branch", "--show-current"]) ∈ (setupBranchIssue env ev0 src).1 := by
  unfold setupBranchIssue
  simp only [h0, h1, h2, h3, h4, hm, Bool.not_true, Bool.false_eq_true, if_false,
    List.mem_append, List.mem_cons, List.not_mem_nil, or_false]
  tauto

/-- C1 as stated is false: in the open-PR path the fetched headRefName is
    interpolated into git fetch and git checkout without any call of
    validateBranchName; here a concrete open-PR run uses the head ref
    evil-head in a git command with no preceding validator call on it. -/
theorem C1_counterexample :
    usedBeforeValidated ("evil-head") (setupBranch envAllOkSetup inpOpenPR).1 = true := by
  rfl

/-- C1 amended: on the open-PR path the fetched headRefName always reaches a
    git invocation before any validation of it, and the only fetched ref that
    is validated is the baseRefName, which is validated (and recorded in the
    trace) before setupBranch returns its BranchInfo. -/
theorem C1_amended (env : SetupEnv) (inp : SetupInputs)
    (hpr : inp.isPR = true)
    (hstate : ((inp.prState == ("CLOSED")) || (inp.prState == ("MERGED"))) = false) :
    usedBeforeValidated inp.headRefName (setupBranch env inp).1 = true ∧
    (∀ info, (setupBranch env inp).2 = SetupOutcome.ok info →
      SetupEv.validated info.baseBranch ∈ (setupBranch env inp).1) := by
  have hsb : setupBranch env inp = setupBranchOpenPR env (setupEv0 inp) inp.headRefName
      inp.baseRefName := by
    unfold setupBranch
    rw [hpr, hstate]
    simp only [if_true, Bool.false_eq_true, if_false, reduceIte]
  rw [hsb]
  constructor
  · unfold setupBranchOpenPR
    rcases hibb : inp.inputBaseBranch with _ | b <;>
      simp only [setupEv0, hibb] <;>
      split_ifs <;>
      · first
        | (rcases hv : validateBranchName inp.baseRefName with m | u <;>
            simp [hv, usedBeforeValidated])
        | simp [usedBeforeValidated]
  · intro info hok
    unfold setupBranchOpenPR at hok ⊢
    split_ifs at hok ⊢ <;>
      rcases hv : validateBranchName inp.baseRefName with m | u <;>
      simp_all <;>
      exact Or.inr (by rw [← hok])

/-- Closed instantiation of the amended C1 at a concrete open PR. -/
theorem C1_amended_witness :
    usedBeforeValidated (inpOpenPR.headRefName) (setupBranch envAllOkSetup inpOpenPR).1 = true ∧
    SetupEv.validated ("main") ∈ (setupBranch envAllOkSetup inpOpenPR).1 :=
  ⟨(C1_amended envAllOkSetup inpOpenPR rfl (by decide)).1,
   (C1_amended envAllOkSetup inpOpenPR rfl (by decide)).2 ⟨("main"), none, ("evil-head")⟩
     (by decide)⟩

/-- C6: for a fetched PR state of CLOSED or MERGED, setupBranch only ever
    issues the shallow fetch (depth 1), checkout and pull of the source
    branch; given that the recorded head ref is none of those fixed argument
    strings, no issued git command references it; and when the three commands
    succeed the returned BranchInfo has baseBranch and currentBranch equal to
    the source branch. -/
theorem C6_closed_pr_fallback (env : SetupEnv) (inp : SetupInputs)
    (hpr : inp.isPR = true)
    (hstate : inp.prState = ("CLOSED") ∨ inp.prState = ("MERGED")) :
    (∀ args, SetupEv.git args ∈ (setupBranch env inp).1 →
        args = ["fetch", "origin", "--depth=1", srcOf env inp] ∨
        args = ["checkout", srcOf env inp] ∨
        args = ["pull", "origin", srcOf env inp]) ∧
    (inp.headRefName ∉
        (["fetch", "origin", "--depth=1", "checkout", "pull", srcOf env inp] : List String) →
      ∀ args, SetupEv.git args ∈ (setupBranch env inp).1 → inp.headRefName ∉ args) ∧
    (env.gitOk (["fetch", "origin", "--depth=1", srcOf env inp]) = true →
     env.gitOk (["checkout", srcOf env inp]) = true →
     env.gitOk (["pull", "origin", srcOf env inp]) = true →
     (setupBranch env inp).2 = SetupOutcome.ok ⟨srcOf env inp, none, srcOf env inp⟩ ∧
     SetupEv.git (["fetch", "origin", "--depth=1", srcOf env inp]) ∈ (setupBranch env inp).1 ∧
     SetupEv.git (["checkout", srcOf env inp]) ∈ (setupBranch env inp).1 ∧
     SetupEv.git (["pull", "origin", srcOf env inp]) ∈ (setupBranch env inp).1) := by
  have hsb : setupBranch env inp = setupBranchClosed env (setupEv0 inp) (srcOf env inp) := by
    unfold setupBranch
    rcases hstate with h | h <;> simp [hpr, h]
  rw [hsb]
  refine ⟨?_, ?_, ?_⟩
  · intro args h
    rcases setupBranchClosed_git_mem env (setupEv0 inp) (srcOf env inp) args h with
      h0 | h1 | h2 | h3
    · exact absurd h0 (setupEv0_no_git inp args)
    · tauto
    · tauto
    · tauto
  · intro hnot args h hmem
    rcases setupBranchClosed_git_mem env (setupEv0 inp) (srcOf env inp) args h with
      h0 | h1 | h2 | h3
    · exact absurd h0 (setupEv0_no_git inp args)
    · subst h1
      simp only [List.mem_cons, List.not_mem_nil, or_false] at hmem hnot
      tauto
    · subst h2
      simp only [List.mem_cons, List.not_mem_nil, or_false] at hmem hnot
      tauto
    · subst h3
      simp only [List.mem_cons, List.not_mem_nil, or_false] at hmem hnot
      tauto
  · intro h1 h2 h3
    unfold setupBranchClosed
    simp only [h1, h2, h3, Bool.not_true, Bool.false_eq_true, if_false, reduceIte,
      List.mem_append, List.mem_cons, List.not_mem_nil, or_false]
    tauto

/-- Closed instantiation of C6 at a concrete closed PR with a resolvable
    head ref: the run returns BranchInfo main/main, the three source-branch
    commands are issued, and no issued command mentions the head ref. -/
theorem C6_witness :
    (setupBranch envAllOkSetup inpClosedPR).2 =
      SetupOutcome.ok ⟨("main"), none, ("main")⟩ ∧
    SetupEv.git (["fetch", "origin", "--depth=1", "main"]) ∈
      (setupBranch envAllOkSetup inpClosedPR).1 ∧
    (("old-head" : String)) ∉ (["checkout", "main"] : List String) :=
  ⟨((C6_closed_pr_fallback envAllOkSetup inpClosedPR rfl (Or.inl rfl)).2.2 rfl rfl rfl).1,
   ((C6_closed_pr_fallback envAllOkSetup inpClosedPR rfl (Or.inl rfl)).2.2 rfl rfl rfl).2.1,
   (C6_closed_pr_fallback envAllOkSetup inpClosedPR rfl (Or.inl rfl)).2.1 (by decide)
     (["checkout", "main"])
     (((C6_closed_pr_fallback envAllOkSetup inpClosedPR rfl (Or.inl rfl)).2.2 rfl rfl rfl).2.2.1)⟩

/-- C7 as stated is false: a successful open-PR run of setupBranch never
    queries the resulting current branch (git branch --show-current is not in
    its trace) and returns normally, even under an environment in which the
    current branch reads back as a branch different from every expected
    target, so no comparison and no fatal exit happens on that path. -/
theorem C7_counterexample :
    SetupEv.git (["branch", "--show-current"]) ∉ (setupBranch envMismatch inpOpenPR).1 ∧
    (setupBranch envMismatch inpOpenPR).2 =
      SetupOutcome.ok ⟨("main"), none, ("evil-head")⟩ := by
  constructor
  · decide
  · rfl

/-- C7 amended: the checkout verification exists only on the issue path:
    there, after a successful status, fetch, checkout and pull, the current
    branch is queried and compared with the expected source branch and a
    mismatch ends in process.exit(1); on both PR paths no current-branch
    query is ever issued. -/
theorem C7_amended (env : SetupEnv) (inp : SetupInputs) :
    (inp.isPR = false →
      env.gitOk (["status"]) = true →
      env.gitOk (["fetch", "origin", "--depth=1", srcOf env inp]) = true →
      env.gitOk (["checkout", srcOf env inp]) = true →
      env.gitOk (["pull", "origin", srcOf env inp]) = true →
      env.gitOk (["branch", "--show-current"]) = true →
      (env.showCurrent == srcOf env inp) = false →
      (setupBranch env inp).2 = SetupOutcome.exited ∧
      SetupEv.git (["branch", "--show-current"]) ∈ (setupBranch env inp).1) ∧
    (inp.isPR = true →
      SetupEv.git (["branch", "--show-current"]) ∉ (setupBranch env inp).1) := by
  constructor
  · intro hpr h0 h1 h2 h3 h4 hm
    have hsb : setupBranch env inp = setupBranchIssue env (setupEv0 inp) (srcOf env inp) := by
      unfold setupBranch
      rw [hpr]
      simp only [Bool.false_eq_true, if_false, reduceIte]
    rw [hsb]
    exact setupBranchIssue_shows_current env (setupEv0 inp) (srcOf env inp) h0 h1 h2 h3 h4 hm
  · intro hpr hmem
    unfold setupBranch at hmem
    rw [hpr] at hmem
    simp only [if_true, reduceIte] at hmem
    by_cases hc : ((inp.prState == ("CLOSED")) || (inp.prState == ("MERGED"))) = true
    · rw [if_pos hc] at hmem
      rcases setupBranchClosed_git_mem env (setupEv0 inp) (srcOf env inp) _ hmem with
        h0 | h1 | h2 | h3
      · exact setupEv0_no_git inp _ h0
      · simp at h1
      · simp at h2
      · simp at h3
    · rw [if_neg hc] at hmem
      rcases setupBranchOpenPR_git_mem env (setupEv0 inp) inp.headRefName inp.baseRefName _
        hmem with h0 | h1 | h2
      · exact setupEv0_no_git inp _ h0
      · simp at h1
      · simp at h2

/-- Closed instantiation of the amended C7: on a concrete issue run with all
    git commands succeeding and a mismatching current branch the outcome is
    exit 1 after a current-branch query, while a concrete open-PR run never
    issues that query. -/
theorem C7_amended_witness :
    (setupBranch envMismatch inpIssue).2 = SetupOutcome.exited ∧
    SetupEv.git (["branch", "--show-current"]) ∈ (setupBranch envMismatch inpIssue).1 ∧
    SetupEv.git (["branch", "--show-current"]) ∉ (setupBranch envMismatch inpOpenPR).1 :=
  ⟨((C7_amended envMismatch inpIssue).1 rfl rfl rfl rfl rfl rfl (by decide)).1,
   ((C7_amended envMismatch inpIssue).1 rfl rfl rfl rfl rfl rfl (by decide)).2,
   (C7_amended envMismatch inpOpenPR).2 rfl⟩

/-! ## Agent Tool Gateway (src/mcp/local-git-ops-server.ts)

Each tool handler is a try block (the body, which can throw) wrapped in a
catch that converts any thrown message into a structured result with
isError true. The environment supplies the outcome of each git command
(runGitCommand) and of the pull-request HTTP call. -/

/-- First-character class of the Gateway ref regex: a-zA-Z0-9, underscore,
    slash. -/
def giteaRefCharStart (c : Char) : Bool :=
  isAlnumAscii c || c == ('_') || c == ('/')

/-- Later-character class of the Gateway ref regex: the start class plus
    dash. -/
def giteaRefCharRest (c : Char) : Bool :=
  giteaRefCharStart c || c == ('-')

/-- The per-handler ref validation regex of create_branch and
    checkout_branch. -/
def giteaRefPatternOk (s : String) : Bool :=
  match s.toList with
  | [] => false
  | c :: cs => giteaRefCharStart c && cs.all giteaRefCharRest

/-- The JSON body of the Gitea pull-request creation request. -/
structure HttpRequest where
  base : String
  head : String
  title : String
  body : String
deriving DecidableEq

/-- Gateway environment: git command outcomes, HTTP outcome (PR number and
    URL on success), and presence of the auth token. -/
structure GatewayEnv where
  exec : List String → Except String String
  http : HttpRequest → Except String (Nat × String)
  hasToken : Bool

/-- A structured tool result: display text, optional error message, and the
    isError flag. -/
structure ToolResult where
  text : String
  error : Option String
  isError : Bool
deriving DecidableEq

def mkToolOk (t : String) : ToolResult := ⟨t, none, false⟩

def mkToolErr (t m : String) : ToolResult := ⟨t, some m, true⟩

/-- Try block of create_branch, in source order: validate base_branch, git
    checkout base, git pull base, validate branch_name, git checkout -b;
    returns the attempted git commands and the thrown or returned message. -/
def createBranchBody (env : GatewayEnv) (branch_name base_branch : String) :
    List (List String) × Except String String :=
  if !(giteaRefPatternOk base_branch) then
    ([], Except.error ("Invalid base branch name: " ++ base_branch))
  else
    match env.exec ["checkout", base_branch] with
    | Except.error m => ([["checkout", base_branch]], Except.error m)
    | Except.ok _ =>
      match env.exec ["pull", "origin", base_branch] with
      | Except.error m =>
          ([["checkout", base_branch], ["pull", "origin", base_branch]], Except.error m)
      | Except.ok _ =>
        if !(giteaRefPatternOk branch_name) then
          ([["checkout", base_branch], ["pull", "origin", base_branch]],
           Except.error ("Invalid branch name: " ++ branch_name))
        else
          match env.exec ["checkout", "-b", branch_name] with
          | Except.error m =>
              ([["checkout", base_branch], ["pull", "origin", base_branch],
                ["checkout", "-b", branch_name]], Except.error m)
          | Except.ok _ =>
              ([["checkout", base_branch], ["pull", "origin", base_branch],
                ["checkout", "-b", branch_name]],
               Except.ok ("Successfully created and checked out branch: " ++ branch_name))

/-- The create_branch handler: body wrapped in the catch block. -/
def create_branch (env : GatewayEnv) (branch_name base_branch : String) :
    List (List String) × ToolResult :=
  ((createBranchBody env branch_name base_branch).1,
   match (createBranchBody env branch_name base_branch).2 with
   | Except.ok msg => mkToolOk msg
   | Except.error m => mkToolErr ("Error creating branch: " ++ m) m)

/-- Try block of checkout_branch: validate, probe the local ref, optionally
    fetch from remote, optionally create, then checkout. -/
def checkoutBranchBody (env : GatewayEnv) (branch_name : String)
    (create_if_missing fetch_remote : Bool) : List (List String) × Except String String :=
  if !(giteaRefPatternOk branch_name) then
    ([], Except.error ("Invalid branch name: " ++ branch_name))
  else
    match env.exec ["rev-parse", "--verify", branch_name] with
    | Except.ok _ =>
        match env.exec ["checkout", branch_name] with
        | Except.error m =>
            ([["rev-parse", "--verify", branch_name], ["checkout", branch_name]],
             Except.error m)
        | Except.ok _ =>
            ([["rev-parse", "--verify", branch_name], ["checkout", branch_name]],
             Except.ok ("Successfully checked out branch: " ++ branch_name))
    | Except.error _ =>
        if fetch_remote then
          match env.exec ["fetch", "origin", branch_name ++ (":") ++ branch_name] with
          | Except.ok _ =>
              match env.exec ["checkout", branch_name] with
              | Except.error m =>
                  ([["rev-parse", "--verify", branch_name],
                    ["fetch", "origin", branch_name ++ (":") ++ branch_name],
                    ["checkout", branch_name]], Except.error m)
              | Except.ok _ =>
                  ([["rev-parse", "--verify", branch_name],
                    ["fetch", "origin", branch_name ++ (":") ++ branch_name],
                    ["checkout", branch_name]],
                   Except.ok ("Successfully checked out branch: " ++ branch_name))
          | Except.error _ =>
              if create_if_missing then
                match env.exec ["checkout", "-b", branch_name] with
                | Except.error m =>
                    ([["rev-parse", "--verify", branch_name],
                      ["fetch", "origin", branch_name ++ (":") ++ branch_name],
                      ["checkout", "-b", branch_name]], Except.error m)
                | Except.ok _ =>
                    ([["rev-parse", "--verify", branch_name],
                      ["fetch", "origin", branch_name ++ (":") ++ branch_name],
                      ["checkout", "-b", branch_name]],
                     Except.ok ("Successfully created and checked out new branch: " ++
                                branch_name))
              else
                ([["rev-parse", "--verify", branch_name],
                  ["fetch", "origin", branch_name ++ (":") ++ branch_name]],
                 Except.error ("Branch does not exist locally or on remote."))
        else
          if create_if_missing then
            match env.exec ["checkout", "-b", branch_name] with
            | Except.error m =>
                ([["rev-parse", "--verify", branch_name], ["checkout", "-b", branch_name]],
                 Except.error m)
            | Except.ok _ =>
                ([["rev-parse", "--verify", branch_name], ["checkout", "-b", branch_name]],
                 Except.ok ("Successfully created and checked out new branch: " ++ branch_name))
          else
            ([["rev-parse", "--verify", branch_name]],
             Except.error ("Branch does not exist locally or on remote."))

/-- The checkout_branch handler: body wrapped in the catch block. -/
def checkout_branch (env : GatewayEnv) (branch_name : String)
    (create_if_missing fetch_remote : Bool) : List (List String) × ToolResult :=
  ((checkoutBranchBody env branch_name create_if_missing fetch_remote).1,
   match (checkoutBranchBody env branch_name create_if_missing fetch_remote).2 with
   | Except.ok msg => mkToolOk msg
   | Except.error m => mkToolErr ("Error checking out branch: " ++ m) m)

/-- Try block of create_pull_request: require the token, resolve the head
    branch (argument or current branch), then issue the HTTP request with
    title, body, base and head passed verbatim; returns the issued request,
    when one is issued, and the outcome. -/
def createPullRequestBody (env : GatewayEnv) (title body base_branch : String)
    (head_branch : Option String) : Option HttpRequest × Except String String :=
  if !env.hasToken then
    (none, Except.error ("GITHUB_TOKEN environment variable is required for PR creation"))
  else
    match head_branch with
    | some h =>
        (some ⟨base_branch, h, title, body⟩,
         match env.http ⟨base_branch, h, title, body⟩ with
         | Except.error m => Except.error ("Failed to create PR: " ++ m)
         | Except.ok _ => Except.ok ("Successfully created pull request"))
    | none =>
        match env.exec ["rev-parse", "--abbrev-ref", "HEAD"] with
        | Except.error m => (none, Except.error m)
        | Except.ok cur =>
            (some ⟨base_branch, cur, title, body⟩,
             match env.http ⟨base_branch, cur, title, body⟩ with
             | Except.error m => Except.error ("Failed to create PR: " ++ m)
             | Except.ok _ => Except.ok ("Successfully created pull request"))

/-- The create_pull_request handler: body wrapped in the catch block. -/
def create_pull_request (env : GatewayEnv) (title body base_branch : String)
    (head_branch : Option String) : Option HttpRequest × ToolResult :=
  ((createPullRequestBody env title body base_branch head_branch).1,
   match (createPullRequestBody env title body base_branch head_branch).2 with
   | Except.ok msg => mkToolOk msg
   | Except.error m => mkToolErr ("Error creating pull request: " ++ m) m)

/-- Gateway environment in which every git and HTTP call succeeds. -/
def envGwAllOk : GatewayEnv :=
  ⟨fun _ => Except.ok (""), fun _ => Except.ok (1, ("url")), true⟩

/-- Gateway environment in which every git and HTTP call fails with boom. -/
def envGwFail : GatewayEnv :=
  ⟨fun _ => Except.error ("boom"), fun _ => Except.error ("boom"), true⟩

/-- C2 as stated is false: the Gateway regex admits the string a//b, which
    validateBranchName rejects (consecutive slashes), and create_pull_request
    performs no validation at all, issuing its HTTP request verbatim with a
    base and head ref that validateBranchName rejects. -/
theorem C2_counterexample :
    giteaRefPatternOk ("a//b") = true ∧ branchNameOk ("a//b") = false ∧
    (create_pull_request envGwAllOk ("t") ("b") ("bad..base") (some ("bad..head"))).1 =
      some ⟨("bad..base"), ("bad..head"), ("t"), ("b")⟩ ∧
    branchNameOk ("bad..base") = false := by
  refine ⟨by decide, by decide, rfl, by decide⟩

/-- C2 amended: create_branch and checkout_branch accept a ref argument only
    if it matches the Gateway regex, rejecting with a structured error and no
    git command otherwise (for create_branch, its base_branch; for
    checkout_branch, its branch_name); but that regex is weaker than
    validateBranchName (it admits a//b, which the Validator rejects), and
    create_pull_request applies no ref validation, passing base and head
    verbatim into the HTTP request. -/
theorem C2_amended :
    (∀ (env : GatewayEnv) (bn bb : String), giteaRefPatternOk bb = false →
      (create_branch env bn bb).1 = [] ∧ (create_branch env bn bb).2.isError = true) ∧
    (∀ (env : GatewayEnv) (bn : String) (cim fr : Bool), giteaRefPatternOk bn = false →
      (checkout_branch env bn cim fr).1 = [] ∧
      (checkout_branch env bn cim fr).2.isError = true) ∧
    (giteaRefPatternOk ("a//b") = true ∧ branchNameOk ("a//b") = false) ∧
    (∀ (t b bb hd : String),
      (create_pull_request envGwAllOk t b bb (some hd)).1 = some ⟨bb, hd, t, b⟩) := by
  refine ⟨?_, ?_, ⟨by decide, by decide⟩, ?_⟩
  · intro env bn bb hbb
    unfold create_branch createBranchBody
    simp [hbb, mkToolErr]
  · intro env bn cim fr hbn
    unfold checkout_branch checkoutBranchBody
    simp [hbn, mkToolErr]
  · intro t b bb hd
    unfold create_pull_request createPullRequestBody envGwAllOk
    simp

/-- Closed instantiation of the amended C2 at concrete rejected refs. -/
theorem C2_amended_witness :
    (create_branch envGwAllOk ("x") ("-bad")).2.isError = true ∧
    (checkout_branch envGwAllOk ("-bad") false true).2.isError = true ∧
    (create_pull_request envGwAllOk ("t2") ("b2") ("base2") (some ("head2"))).1 =
      some ⟨("base2"), ("head2"), ("t2"), ("b2")⟩ :=
  ⟨(C2_amended.1 envGwAllOk ("x") ("-bad") (by decide)).2,
   (C2_amended.2.1 envGwAllOk ("-bad") false true (by decide)).2,
   C2_amended.2.2.2 ("t2") ("b2") ("base2") ("head2")⟩

/-- C9: for each modeled Gateway handler (create_branch, checkout_branch,
    create_pull_request), whenever the try block throws a message the handler
    returns a structured result with isError true carrying exactly that
    message, and whenever the try block returns normally the result has
    isError false; the handler itself never rethrows. -/
theorem C9_structured_errors :
    (∀ (env : GatewayEnv) (bn bb m : String),
      (createBranchBody env bn bb).2 = Except.error m →
      (create_branch env bn bb).2.isError = true ∧
      (create_branch env bn bb).2.error = some m) ∧
    (∀ (env : GatewayEnv) (bn bb msg : String),
      (createBranchBody env bn bb).2 = Except.ok msg →
      (create_branch env bn bb).2.isError = false) ∧
    (∀ (env : GatewayEnv) (bn : String) (cim fr : Bool) (m : String),
      (checkoutBranchBody env bn cim fr).2 = Except.error m →
      (checkout_branch env bn cim fr).2.isError = true ∧
      (checkout_branch env bn cim fr).2.error = some m) ∧
    (∀ (env : GatewayEnv) (bn : String) (cim fr : Bool) (msg : String),
      (checkoutBranchBody env bn cim fr).2 = Except.ok msg →
      (checkout_branch env bn cim fr).2.isError = false) ∧
    (∀ (env : GatewayEnv) (t b bb : String) (hd : Option String) (m : String),
      (createPullRequestBody env t b bb hd).2 = Except.error m →
      (create_pull_request env t b bb hd).2.isError = true ∧
      (create_pull_request env t b bb hd).2.error = some m) ∧
    (∀ (env : GatewayEnv) (t b bb : String) (hd : Option String) (msg : String),
      (createPullRequestBody env t b bb hd).2 = Except.ok msg →
      (create_pull_request env t b bb hd).2.isError = false) := by
  refine ⟨?_, ?_, ?_, ?_, ?_, ?_⟩
  · intro env bn bb m h
    unfold create_branch
    rw [h]
    exact ⟨rfl, rfl⟩
  · intro env bn bb msg h
    unfold create_branch
    rw [h]
    rfl
  · intro env bn cim fr m h
    unfold checkout_branch
    rw [h]
    exact ⟨rfl, rfl⟩
  · intro env bn cim fr msg h
    unfold checkout_branch
    rw [h]
    rfl
  · intro env t b bb hd m h
    unfold create_pull_request
    rw [h]
    exact ⟨rfl, rfl⟩
  · intro env t b bb hd msg h
    unfold create_pull_request
    rw [h]
    rfl

/-- Closed instantiation of C9: each handler turns a concrete failing call
    into a structured error result carrying the thrown message. -/
theorem C9_witness :
    ((create_branch envGwFail ("x") ("main")).2.isError = true ∧
     (create_branch envGwFail ("x") ("main")).2.error = some ("boom")) ∧
    ((checkout_branch envGwFail ("feat") true true).2.isError = true ∧
     (checkout_branch envGwFail ("feat") true true).2.error = some ("boom")) ∧
    ((create_pull_request envGwFail ("t") ("b") ("main") (some ("h"))).2.isError = true ∧
     (create_pull_request envGwFail ("t") ("b") ("main")
       (some ("h"))).2.error = some ("Failed to create PR: boom")) :=
  ⟨C9_structured_errors.1 envGwFail ("x") ("main") ("boom") rfl,
   C9_structured_errors.2.2.1 envGwFail ("feat") true true ("boom") rfl,
   C9_structured_errors.2.2.2.2.1 envGwFail ("t") ("b") ("main") (some ("h"))
     ("Failed to create PR: boom") rfl⟩

/-- C10: create_branch validates base_branch, then runs git checkout and git
    pull on it, and only afterwards validates branch_name; so with a valid
    base_branch, succeeding checkout and pull, and an invalid branch_name the
    handler returns a structured error although the working tree has already
    been switched to and updated from base_branch: the failed operation is
    not atomic. -/
theorem C10_create_branch_not_atomic (env : GatewayEnv) (bn bb : String)
    (hbb : giteaRefPatternOk bb = true) (hbn : giteaRefPatternOk bn = false)
    (hco : (env.exec ["checkout", bb]).isOk = true)
    (hpl : (env.exec ["pull", "origin", bb]).isOk = true) :
    (create_branch env bn bb).2.isError = true ∧
    (create_branch env bn bb).1 = [["checkout", bb], ["pull", "origin", bb]] := by
  unfold create_branch createBranchBody
  rcases hc : env.exec ["checkout", bb] with m | o
  · rw [hc] at hco
    simp [Except.isOk, Except.toBool] at hco
  · rcases hp : env.exec ["pull", "origin", bb] with m | o2
    · rw [hp] at hpl
      simp [Except.isOk, Except.toBool] at hpl
    · simp [hbb, hbn, hc, hp, mkToolErr]

/-- Closed instantiation of C10: base main valid and updated, branch name
    with a period rejected only afterwards. -/
theorem C10_witness :
    giteaRefPatternOk ("main") = true ∧ giteaRefPatternOk ("a.b") = false ∧
    (create_branch envGwAllOk ("a.b") ("main")).2.isError = true ∧
    (create_branch envGwAllOk ("a.b") ("main")).1 =
      [["checkout", "main"], ["pull", "origin", "main"]] :=
  ⟨by decide, by decide,
   (C10_create_branch_not_atomic envGwAllOk ("a.b") ("main") (by decide) (by decide)
     (by decide) (by decide)).1,
   (C10_create_branch_not_atomic envGwAllOk ("a.b") ("main") (by decide) (by decide)
     (by decide) (by decide)).2⟩

/-! ## Permission check (src/github/validation/permissions.ts,
checkWritePermissions) -/

/-- The permissions field of the repository-metadata response. -/
structure RepoPerms where
  admin : Bool
  push : Bool
  pull : Bool
deriving DecidableEq

/-- The repository-metadata response, whose permissions field may be
    absent. -/
structure RepoResponse where
  permissions : Option RepoPerms
deriving DecidableEq

/-- Embeds checkWritePermissions: the metadata query result is an argument;
    a failed query is rethrown with the actor in the message; a response
    without permissions allows; admin or push allows; otherwise denies. -/
def checkWritePermissions (actor : String) (resp : Except String RepoResponse) :
    Except String Bool :=
  match resp with
  | Except.error e =>
      Except.error ("Failed to check permissions for " ++ actor ++ (": ") ++ e)
  | Except.ok r =>
      match r.permissions with
      | none => Except.ok true
      | some p => if p.admin || p.push then Except.ok true else Except.ok false

/-- C4: checkWritePermissions returns true on a response without a
    permissions field; returns true when admin or push is set; returns false
    when both are false; and a failed metadata query propagates as an error
    value rather than a boolean. -/
theorem C4_checkWritePermissions :
    (∀ (a : String) (r : RepoResponse), r.permissions = none →
      checkWritePermissions a (Except.ok r) = Except.ok true) ∧
    (∀ (a : String) (r : RepoResponse) (p : RepoPerms), r.permissions = some p →
      p.admin = true ∨ p.push = true →
      checkWritePermissions a (Except.ok r) = Except.ok true) ∧
    (∀ (a : String) (r : RepoResponse) (p : RepoPerms), r.permissions = some p →
      p.admin = false → p.push = false →
      checkWritePermissions a (Except.ok r) = Except.ok false) ∧
    (∀ (a e : String), checkWritePermissions a (Except.error e) =
      Except.error ("Failed to check permissions for " ++ a ++ (": ") ++ e)) := by
  refine ⟨?_, ?_, ?_, ?_⟩
  · intro a r h
    simp [checkWritePermissions, h]
  · intro a r p h hp
    rcases hp with hp | hp <;> simp [checkWritePermissions, h, hp]
  · intro a r p h ha hp
    simp [checkWritePermissions, h, ha, hp]
  · intro a e
    rfl

/-- Closed instantiation of C4 at concrete responses. -/
theorem C4_witness :
    checkWritePermissions ("alice") (Except.ok ⟨none⟩) = Except.ok true ∧
    checkWritePermissions ("alice") (Except.ok ⟨some ⟨false, true, true⟩⟩) = Except.ok true ∧
    checkWritePermissions ("alice") (Except.ok ⟨some ⟨false, false, true⟩⟩) =
      Except.ok false ∧
    checkWritePermissions ("alice") (Except.error ("down")) =
      Except.error ("Failed to check permissions for alice: down") :=
  ⟨C4_checkWritePermissions.1 ("alice") ⟨none⟩ rfl,
   C4_checkWritePermissions.2.1 ("alice") ⟨some ⟨false, true, true⟩⟩ ⟨false, true, true⟩
     rfl (Or.inr rfl),
   C4_checkWritePermissions.2.2.1 ("alice") ⟨some ⟨false, false, true⟩⟩ ⟨false, false, true⟩
     rfl rfl rfl,
   C4_checkWritePermissions.2.2.2 ("alice") ("down")⟩

/-! ## Prepare entrypoint (src/entrypoints/prepare.ts, run)

The run function is a single try/catch; any thrown error reaches
core.setFailed and process.exit(1). The environment supplies the outcome of
each awaited step; the trace records which steps were invoked, in order. -/

/-- Steps of the prepare flow observable in its trace. -/
inductive PrepEv where
  | setupToken
  | parseContext
  | checkPerms
  | checkTrigger
  | checkHuman
  | createComment
  | laterSteps
  | setOutput (key value : String)
deriving DecidableEq

/-- Outcome of the prepare run: normal return or process.exit(1). -/
inductive PrepOutcome where
  | normal
  | exit1
deriving DecidableEq

/-- Environment of the prepare run: the result of each awaited step; rest
    bundles data fetch, branch setup, prompt and MCP config (steps 7-11). -/
structure PrepEnv where
  token : Except String String
  context : Except String Unit
  perm : Except String Bool
  trigger : Except String Bool
  human : Except String Unit
  isEntity : Bool
  shouldCreateComment : Bool
  commentId : Except String Nat
  rest : Except String Unit

/-- Embeds run of prepare.ts: token setup, context parse, permission check
    (a false result throws), trigger check with its outputs, early normal
    return without trigger, human-actor check, then the entity flow with the
    optional tracking comment, or the automation flow. -/
def prepareRun (env : PrepEnv) : List PrepEv × PrepOutcome :=
  match env.token with
  | Except.error _ => ([PrepEv.setupToken], PrepOutcome.exit1)
  | Except.ok tok =>
  match env.context with
  | Except.error _ => ([PrepEv.setupToken, PrepEv.parseContext], PrepOutcome.exit1)
  | Except.ok _ =>
  match env.perm with
  | Except.error _ =>
      ([PrepEv.setupToken, PrepEv.parseContext, PrepEv.checkPerms], PrepOutcome.exit1)
  | Except.ok false =>
      ([PrepEv.setupToken, PrepEv.parseContext, PrepEv.checkPerms], PrepOutcome.exit1)
  | Except.ok true =>
  match env.trigger with
  | Except.error _ =>
      ([PrepEv.setupToken, PrepEv.parseContext, PrepEv.checkPerms, PrepEv.checkTrigger],
       PrepOutcome.exit1)
  | Except.ok ct =>
  if !ct then
    ([PrepEv.setupToken, PrepEv.parseContext, PrepEv.checkPerms, PrepEv.checkTrigger,
      PrepEv.setOutput ("contains_trigger") ("false"), PrepEv.setOutput ("GITHUB_TOKEN") tok],
     PrepOutcome.normal)
  else
    match env.human with
    | Except.error _ =>
        ([PrepEv.setupToken, PrepEv.parseContext, PrepEv.checkPerms, PrepEv.checkTrigger,
          PrepEv.setOutput ("contains_trigger") ("true"),
          PrepEv.setOutput ("GITHUB_TOKEN") tok, PrepEv.checkHuman],
         PrepOutcome.exit1)
    | Except.ok _ =>
        if env.isEntity then
          if env.shouldCreateComment then
            match env.commentId with
            | Except.error _ =>
                ([PrepEv.setupToken, PrepEv.parseContext, PrepEv.checkPerms,
                  PrepEv.checkTrigger, PrepEv.setOutput ("contains_trigger") ("true"),
                  PrepEv.setOutput ("GITHUB_TOKEN") tok, PrepEv.checkHuman,
                  PrepEv.createComment],
                 PrepOutcome.exit1)
            | Except.ok cid =>
                match env.rest with
                | Except.error _ =>
                    ([PrepEv.setupToken, PrepEv.parseContext, PrepEv.checkPerms,
                      PrepEv.checkTrigger, PrepEv.setOutput ("contains_trigger") ("true"),
                      PrepEv.setOutput ("GITHUB_TOKEN") tok, PrepEv.checkHuman,
                      PrepEv.createComment,
                      PrepEv.setOutput ("claude_comment_id") (toString cid),
                      PrepEv.laterSteps],
                     PrepOutcome.exit1)
                | Except.ok _ =>
                    ([PrepEv.setupToken, PrepEv.parseContext, PrepEv.checkPerms,
                      PrepEv.checkTrigger, PrepEv.setOutput ("contains_trigger") ("true"),
                      PrepEv.setOutput ("GITHUB_TOKEN") tok, PrepEv.checkHuman,
                      PrepEv.createComment,
                      PrepEv.setOutput ("claude_comment_id") (toString cid),
                      PrepEv.laterSteps],
                     PrepOutcome.normal)
          else
            match env.rest with
            | Except.error _ =>
                ([PrepEv.setupToken, PrepEv.parseContext, PrepEv.checkPerms,
                  PrepEv.checkTrigger, PrepEv.setOutput ("contains_trigger") ("true"),
                  PrepEv.setOutput ("GITHUB_TOKEN") tok, PrepEv.checkHuman,
                  PrepEv.laterSteps],
                 PrepOutcome.exit1)
            | Except.ok _ =>
                ([PrepEv.setupToken, PrepEv.parseContext, PrepEv.checkPerms,
                  PrepEv.checkTrigger, PrepEv.setOutput ("contains_trigger") ("true"),
                  PrepEv.setOutput ("GITHUB_TOKEN") tok, PrepEv.checkHuman,
                  PrepEv.laterSteps],
                 PrepOutcome.normal)
        else
          match env.rest with
          | Except.error _ =>
              ([PrepEv.setupToken, PrepEv.parseContext, PrepEv.checkPerms,
                PrepEv.checkTrigger, PrepEv.setOutput ("contains_trigger") ("true"),
                PrepEv.setOutput ("GITHUB_TOKEN") tok, PrepEv.laterSteps],
               PrepOutcome.exit1)
          | Except.ok _ =>
              ([PrepEv.setupToken, PrepEv.parseContext, PrepEv.checkPerms,
                PrepEv.checkTrigger, PrepEv.setOutput ("contains_trigger") ("true"),
                PrepEv.setOutput ("GITHUB_TOKEN") tok, PrepEv.laterSteps],
               PrepOutcome.normal)

/-- C3: whenever the permission check yields false, the prepare run never
    invokes the trigger check and never creates the initial comment, and the
    process exits non-zero. -/
theorem C3_permission_denial_aborts (env : PrepEnv)
    (h : env.perm = Except.ok false) :
    PrepEv.checkTrigger ∉ (prepareRun env).1 ∧
    PrepEv.createComment ∉ (prepareRun env).1 ∧
    (prepareRun env).2 = PrepOutcome.exit1 := by
  unfold prepareRun
  rcases htok : env.token with e | tok
  · simp [htok]
  · rcases hctx : env.context with e | u
    · simp [htok, hctx]
    · simp [htok, hctx, h]

/-- A concrete environment in which the actor is denied write access while
    everything else would succeed. -/
def envPrepDenied : PrepEnv :=
  ⟨Except.ok ("tok"), Except.ok (), Except.ok false, Except.ok true, Except.ok (),
   true, true, Except.ok 7, Except.ok ()⟩

/-- Closed instantiation of C3 at the denied environment. -/
theorem C3_witness :
    PrepEv.checkTrigger ∉ (prepareRun envPrepDenied).1 ∧
    PrepEv.createComment ∉ (prepareRun envPrepDenied).1 ∧
    (prepareRun envPrepDenied).2 = PrepOutcome.exit1 :=
  C3_permission_denial_aborts envPrepDenied rfl

/-! ## Actor Filter (src/github/data/fetcher.ts)

shouldIncludeCommentByActor builds, for a pattern containing a star, the
JavaScript regex anchored-caret ++ pattern.replace(star, dot-star) ++
anchored-dollar and tests the login against it. The regex constructed this
way is modeled by a small matcher over the constructs such a pattern can
produce: literal characters, dot (any character), dot-star (from the star
replacement), and square-bracket character classes — in particular a
bracket in the pattern becomes a character class, exactly as in the
JavaScript RegExp constructor. Recursions carry an explicit fuel bounded
below by a decreasing measure so that every call with the supplied fuel is
total on the nose. -/

/-- Tokens of the constructed regex. -/
inductive RToken where
  | lit (c : Char)
  | dot
  | anyStar
  | cls (cs : List Char)
deriving DecidableEq

/-- Reads a bracket character class: the characters before the closing
    bracket, and the remainder after it. -/
def splitClass : List Char → List Char × List Char
  | [] => ([], [])
  | c :: rest =>
      if c = ']' then ([], rest)
      else ((c :: (splitClass rest).1), (splitClass rest).2)

/-- Parses the pattern into regex tokens, after the star to dot-star
    replacement: star becomes anyStar, an opening bracket starts a character
    class, dot matches any character, anything else is a literal. -/
def parsePatternFuel : Nat → List Char → List RToken
  | 0, _ => []
  | _ + 1, [] => []
  | n + 1, c :: rest =>
      if c = '*' then RToken.anyStar :: parsePatternFuel n rest
      else if c = '[' then
        RToken.cls (splitClass rest).1 :: parsePatternFuel n (splitClass rest).2
      else if c = '.' then RToken.dot :: parsePatternFuel n rest
      else RToken.lit c :: parsePatternFuel n rest

def parsePattern (cs : List Char) : List RToken := parsePatternFuel (cs.length + 1) cs

/-- Anchored matching of the token sequence against the whole character
    list, with backtracking for anyStar. -/
def rmatchFuel : Nat → List RToken → List Char → Bool
  | 0, _, _ => false
  | _ + 1, [], [] => true
  | _ + 1, [], _ :: _ => false
  | _ + 1, RToken.lit _ :: _, [] => false
  | n + 1, RToken.lit c :: ts, x :: xs => c == x && rmatchFuel n ts xs
  | _ + 1, RToken.dot :: _, [] => false
  | n + 1, RToken.dot :: ts, _ :: xs => rmatchFuel n ts xs
  | _ + 1, RToken.cls _ :: _, [] => false
  | n + 1, RToken.cls cs :: ts, x :: xs => cs.contains x && rmatchFuel n ts xs
  | n + 1, RToken.anyStar :: ts, [] => rmatchFuel n ts []
  | n + 1, RToken.anyStar :: ts, x :: xs =>
      rmatchFuel n ts (x :: xs) || rmatchFuel n (RToken.anyStar :: ts) xs

def rmatch (ts : List RToken) (xs : List Char) : Bool :=
  rmatchFuel (ts.length + xs.length + 1) ts xs

/-- One pattern test of shouldIncludeCommentByActor: regex matching when the
    pattern contains a star, exact login equality otherwise. -/
def matchesActorPattern (actorLogin p : String) : Bool :=
  if p.toList.contains ('*') then rmatch (parsePattern p.toList) actorLogin.toList
  else actorLogin == p

/-- Embeds shouldIncludeCommentByActor: exclusions first (they take
    priority), then the empty include list includes by default, then
    inclusions. -/
def shouldIncludeCommentByActor (actorLogin : String)
    (includePatterns excludePatterns : List String) : Bool :=
  if excludePatterns.any (fun p => matchesActorPattern actorLogin p) then false
  else if includePatterns.isEmpty then true
  else includePatterns.any (fun p => matchesActorPattern actorLogin p)

/-- Splits a character list at commas. -/
def splitCommaAux (acc : List Char) : List Char → List (List Char)
  | [] => [acc.reverse]
  | c :: rest =>
      if c = ',' then acc.reverse :: splitCommaAux [] rest
      else splitCommaAux (c :: acc) rest

/-- Trims whitespace from both ends. -/
def trimChars (cs : List Char) : List Char :=
  ((cs.dropWhile Char.isWhitespace).reverse.dropWhile Char.isWhitespace).reverse

/-- Embeds parseActorFilter: an empty or whitespace-only filter string is no
    patterns; otherwise split on commas, trim, drop empties. -/
def parseActorFilter (s : String) : List String :=
  if s.toList.all Char.isWhitespace then []
  else
    ((splitCommaAux [] s.toList).map (fun cs => String.mk (trimChars cs))).filter
      (fun t => t.length > 0)

/-- A comment with its author login. -/
structure UserComment where
  author : String
  body : String
deriving DecidableEq

/-- Embeds filterCommentsByActor: with no filters the input is returned
    unchanged, otherwise the list is filtered through
    shouldIncludeCommentByActor. -/
def filterCommentsByActor (comments : List UserComment)
    (includeActors excludeActors : String) : List UserComment :=
  if (parseActorFilter includeActors).isEmpty &&
     (parseActorFilter excludeActors).isEmpty then comments
  else
    comments.filter (fun c =>
      shouldIncludeCommentByActor c.author (parseActorFilter includeActors)
        (parseActorFilter excludeActors))

/-- C8 is a code bug: the doc of the filter promises that the exclude
    pattern star-bracket-bot removes every bot login, but the pattern
    compiles to the regex caret dot-star bracket-b-o-t dollar, in which the
    bracket part is a character class matching one final b, o or t; a login
    ending in the literal bracket-bot-bracket ends in a closing bracket and
    is therefore kept, while an unrelated login merely ending in the letter
    t is removed. The other clauses of the claim behave as stated: a
    non-wildcard exclusion removes exactly that author under an empty
    include list. -/
theorem C8_filter_bug :
    shouldIncludeCommentByActor ("dependabot[bot]") [] [("*[bot]")] = true ∧
    filterCommentsByActor [⟨("dependabot[bot]"), ("hi")⟩] ("") ("*[bot]") =
      [⟨("dependabot[bot]"), ("hi")⟩] ∧
    shouldIncludeCommentByActor ("robert") [] [("*[bot]")] = false ∧
    shouldIncludeCommentByActor ("alice") [] [("alice")] = false ∧
    shouldIncludeCommentByActor ("bob") [] [("alice")] = true :=
  ⟨by decide, by decide, by decide, by decide, by decide⟩
